import Mathlib

/-!
Shallow embedding of the `olo_rust` interface layer (src/src/lib.rs and
src/src/python.rs) over an abstract model of the external OneLOop numerical
engine.  Machine doubles (`f64`) are idealized as real numbers; complex
doubles (`num_complex::Complex64`) as pairs of reals.  Calls across the FFI
boundary are recorded in an explicit trace, and the engine's hidden
process-wide state (renormalization scale, on-shell threshold, log sinks) is
threaded explicitly as a `Config` value.
-/

/-- Embedding of `num_complex::Complex64`: a pair of doubles, idealized
over the reals. -/
structure Complex64 where
  re : ℝ
  im : ℝ

/-- The `Default` value of `Complex64` in `num_complex` is `0 + 0i`. -/
def Complex64.zero : Complex64 := ⟨0, 0⟩

/-- Embedding of `ResultOLO` from src/src/lib.rs: the Laurent expansion
coefficients, an internal three-element array `values: [Complex64; 3]`. -/
structure ResultOLO where
  values : Fin 3 → Complex64

/-- The traits in the `#[derive(...)]` attribute on `ResultOLO` in
src/src/lib.rs (line 23).  No equality trait (`PartialEq` or `Eq`) is
derived, and no manual impl of either exists in the source. -/
def ResultOLO.derivedTraits : List String := ["Clone", "Copy", "Default"]

/-- The derived `Default` for `ResultOLO`: all three coefficients are the
default (zero) complex value. -/
def ResultOLO.default : ResultOLO := ⟨fun _ => Complex64.zero⟩

/-- Getter for the ε⁰ coefficient (`values[0]`), from src/src/lib.rs. -/
def ResultOLO.epsilon_0 (r : ResultOLO) : Complex64 := r.values 0

/-- Getter for the ε⁻¹ coefficient (`values[1]`), from src/src/lib.rs. -/
def ResultOLO.epsilon_minus_1 (r : ResultOLO) : Complex64 := r.values 1

/-- Getter for the ε⁻² coefficient (`values[2]`), from src/src/lib.rs. -/
def ResultOLO.epsilon_minus_2 (r : ResultOLO) : Complex64 := r.values 2

/-- src/src/python.rs refers to the Laurent result type under the name
`OLOResult`. -/
abbrev OLOResult := ResultOLO

/-- Modelled from the spec: the log-verbosity unit enum `OLOUnit`, whose
declaration is not under src/ (src/src/python.rs and src/tests/unit.rs use
`crate::OLOUnit` with variants `PrintAll`, `Message`, `Warning`, `Error`). -/
inductive OLOUnit where
  | PrintAll
  | Message
  | Warning
  | Error

/-- Modelled from the spec: the external engine's hidden process-wide
configuration (renormalization scale μ and on-shell threshold, spec §3
EngineConfiguration).  The engine itself is out of scope; only the fact
that such ambient state exists matters to the interface layer. -/
structure Config where
  mu : ℝ
  threshold : ℝ

/-- A default ambient configuration (spec §3: default μ typically 1.0,
threshold a small positive real). -/
def Config.default : Config := ⟨1, 0⟩

/-- One call across the FFI boundary into the external engine, recording
the exact arguments the interface layer hands over (for the evaluation
routines this includes the caller-owned output buffer's initial contents). -/
inductive EngineCall where
  | onshellSet (t : ℝ)
  | scaleSet (mu : ℝ)
  | unitSet (u : OLOUnit) (sink : Option Int)
  | a0 (buf : ResultOLO) (m : Complex64)
  | b0 (buf : ResultOLO) (p m1 m2 : Complex64)
  | c0 (buf : ResultOLO) (p1 p2 p3 m1 m2 m3 : Complex64)
  | d0 (buf : ResultOLO) (p1 p2 p3 p4 p12 p23 m1 m2 m3 m4 : Complex64)

/-- Abstract model of the external OneLOop engine (the five FFI entry
points of src/src/lib.rs `mod ffi`, plus the scale and unit setters whose
declarations are not under src/).  Setters mutate the hidden configuration;
evaluation routines write the output buffer as a deterministic function of
the configuration, the buffer's prior contents, and the arguments (spec §5:
the engine's evaluation is deterministic and mutates no state). -/
structure Engine where
  onshell : Config → ℝ → Config
  scale : Config → ℝ → Config
  setUnit : Config → OLOUnit → Option Int → Config
  a0 : Config → ResultOLO → Complex64 → ResultOLO
  b0 : Config → ResultOLO → Complex64 → Complex64 → Complex64 → ResultOLO
  c0 : Config → ResultOLO → Complex64 → Complex64 → Complex64 → Complex64 →
      Complex64 → Complex64 → ResultOLO
  d0 : Config → ResultOLO → Complex64 → Complex64 → Complex64 → Complex64 →
      Complex64 → Complex64 → Complex64 → Complex64 → Complex64 → Complex64 →
      ResultOLO

/-- A concrete engine instance: setters leave the configuration unchanged
and evaluation routines return the buffer as handed over.  Used only to
instantiate universally quantified statements at a concrete point. -/
def Engine.trivial : Engine where
  onshell := fun cfg _ => cfg
  scale := fun cfg _ => cfg
  setUnit := fun cfg _ _ => cfg
  a0 := fun _ buf _ => buf
  b0 := fun _ buf _ _ _ => buf
  c0 := fun _ buf _ _ _ _ _ _ => buf
  d0 := fun _ buf _ _ _ _ _ _ _ _ _ _ => buf

/-- A concrete engine whose two-point routine depends on the imaginary
part of its momentum argument: `b0` writes `Im p` into the ε⁰ slot.
Nothing in the interface layer rules such an engine out. -/
def imSensitiveEngine : Engine :=
  { Engine.trivial with b0 := fun _ _ p _ _ => ⟨fun _ => ⟨p.im, 0⟩⟩ }

/-- Embedding of the constant `TO_FEYNMAN` from src/src/lib.rs:
`-1.0 / (16.0 * PI * PI)`, with `f64` arithmetic idealized over ℝ. -/
noncomputable def TO_FEYNMAN : ℝ := -1.0 / (16.0 * Real.pi * Real.pi)

/-- Embedding of `olo_onshell` from src/src/lib.rs: passes the threshold
to the engine's `olo_onshell` entry point, unconditionally, and returns
nothing.  The updated hidden configuration and the FFI trace are made
explicit. -/
def olo_onshell (e : Engine) (cfg : Config) (threshold : ℝ) :
    Config × List EngineCall :=
  (e.onshell cfg threshold, [EngineCall.onshellSet threshold])

/-- Modelled from the spec: `olo_renormalization_scale` (used by
src/src/python.rs and src/tests/mu_scale.rs) is not under src/.  Spec §4.3:
`set_renormalization_scale(mu)` is a synchronous call into the external
engine that mutates global engine state and has no return value. -/
def olo_renormalization_scale (e : Engine) (cfg : Config) (mu : ℝ) :
    Config × List EngineCall :=
  (e.scale cfg mu, [EngineCall.scaleSet mu])

/-- Modelled from the spec: `olo_unit` (used by src/src/python.rs; the
test src/tests/unit.rs calls it `set_log_level`) is not under src/.
Spec §4.3: `set_log_level(unit, destination: optional integer sink
identifier)` forwards the severity class and optional sink to the engine. -/
def olo_unit (e : Engine) (cfg : Config) (u : OLOUnit) (value : Option Int) :
    Config × List EngineCall :=
  (e.setUnit cfg u value, [EngineCall.unitSet u value])

/-- Embedding of `olo_1_point_complex` from src/src/lib.rs: allocates a
default (zero-initialized) `ResultOLO`, hands its address and the argument
to the engine's `a0_c` entry point, and returns the populated result. -/
def olo_1_point_complex (e : Engine) (cfg : Config) (m : Complex64) :
    ResultOLO × List EngineCall :=
  let r := ResultOLO.default
  (e.a0 cfg r m, [EngineCall.a0 r m])

/-- Embedding of `olo_2_point_complex` from src/src/lib.rs. -/
def olo_2_point_complex (e : Engine) (cfg : Config) (p m1 m2 : Complex64) :
    ResultOLO × List EngineCall :=
  let r := ResultOLO.default
  (e.b0 cfg r p m1 m2, [EngineCall.b0 r p m1 m2])

/-- Embedding of `olo_3_point_complex` from src/src/lib.rs. -/
def olo_3_point_complex (e : Engine) (cfg : Config)
    (p1 p2 p3 m1 m2 m3 : Complex64) : ResultOLO × List EngineCall :=
  let r := ResultOLO.default
  (e.c0 cfg r p1 p2 p3 m1 m2 m3, [EngineCall.c0 r p1 p2 p3 m1 m2 m3])

/-- Embedding of `olo_4_point_complex` from src/src/lib.rs. -/
def olo_4_point_complex (e : Engine) (cfg : Config)
    (p1 p2 p3 p4 p12 p23 m1 m2 m3 m4 : Complex64) :
    ResultOLO × List EngineCall :=
  let r := ResultOLO.default
  (e.d0 cfg r p1 p2 p3 p4 p12 p23 m1 m2 m3 m4,
   [EngineCall.d0 r p1 p2 p3 p4 p12 p23 m1 m2 m3 m4])

/-- Embedding of the `#[pyclass] PyOLOResult` wrapper from
src/src/python.rs: holds an inner `OLOResult`. -/
structure PyOLOResult where
  inner : OLOResult

/-- Embedding of `impl From<OLOResult> for PyOLOResult` from
src/src/python.rs: wraps the value. -/
def PyOLOResult.fromResult (value : OLOResult) : PyOLOResult := ⟨value⟩

/-- The `epsilon_0` getter of `PyOLOResult`: delegates to the inner
result's accessor. -/
def PyOLOResult.epsilon_0 (s : PyOLOResult) : Complex64 := s.inner.epsilon_0

/-- The `epsilon_minus_1` getter of `PyOLOResult`. -/
def PyOLOResult.epsilon_minus_1 (s : PyOLOResult) : Complex64 :=
  s.inner.epsilon_minus_1

/-- The `epsilon_minus_2` getter of `PyOLOResult`. -/
def PyOLOResult.epsilon_minus_2 (s : PyOLOResult) : Complex64 :=
  s.inner.epsilon_minus_2

/-- The getter names exposed by `#[pymethods] impl PyOLOResult` in
src/src/python.rs (the `#[getter]`-attributed methods, in source order). -/
def PyOLOResult.getterNames : List String :=
  ["epsilon_0", "epsilon_minus_1", "epsilon_minus_2"]

/-- Embedding of `olo_1_point_complex_py` from src/src/python.rs:
calls the library function and wraps the result. -/
def olo_1_point_complex_py (e : Engine) (cfg : Config) (m : Complex64) :
    PyOLOResult × List EngineCall :=
  let (r, t) := olo_1_point_complex e cfg m
  (PyOLOResult.fromResult r, t)

/-- Embedding of `olo_2_point_complex_py` from src/src/python.rs. -/
def olo_2_point_complex_py (e : Engine) (cfg : Config) (p m1 m2 : Complex64) :
    PyOLOResult × List EngineCall :=
  let (r, t) := olo_2_point_complex e cfg p m1 m2
  (PyOLOResult.fromResult r, t)

/-- Embedding of `olo_3_point_complex_py` from src/src/python.rs. -/
def olo_3_point_complex_py (e : Engine) (cfg : Config)
    (p1 p2 p3 m1 m2 m3 : Complex64) : PyOLOResult × List EngineCall :=
  let (r, t) := olo_3_point_complex e cfg p1 p2 p3 m1 m2 m3
  (PyOLOResult.fromResult r, t)

/-- Embedding of `olo_4_point_complex_py` from src/src/python.rs. -/
def olo_4_point_complex_py (e : Engine) (cfg : Config)
    (p1 p2 p3 p4 p12 p23 m1 m2 m3 m4 : Complex64) :
    PyOLOResult × List EngineCall :=
  let (r, t) := olo_4_point_complex e cfg p1 p2 p3 p4 p12 p23 m1 m2 m3 m4
  (PyOLOResult.fromResult r, t)

/-- Embedding of Rust's `str::to_lowercase` as used in src/src/python.rs:
maps each character to its lower-case form.  Restricted to the ASCII case
mapping, which coincides with the Rust function on every string compared
against here (the recognized names are all ASCII). -/
def toLowercase (s : String) : String := ⟨s.data.map Char.toLower⟩

/-- Embedding of `set_olo_unit_py` from src/src/python.rs: matches the
lowercased unit name against the four recognized strings; on a match it
forwards the unit and optional sink to `olo_unit`, otherwise it raises a
`PyValueError` before any engine call.  The error branch is `Except.error`
paired with an empty FFI trace. -/
def set_olo_unit_py (e : Engine) (cfg : Config) (unit_name : String)
    (value : Option Int) : Except String Config × List EngineCall :=
  if toLowercase unit_name = "printall" then
    let (c, t) := olo_unit e cfg OLOUnit.PrintAll value
    (Except.ok c, t)
  else if toLowercase unit_name = "message" then
    let (c, t) := olo_unit e cfg OLOUnit.Message value
    (Except.ok c, t)
  else if toLowercase unit_name = "warning" then
    let (c, t) := olo_unit e cfg OLOUnit.Warning value
    (Except.ok c, t)
  else if toLowercase unit_name = "error" then
    let (c, t) := olo_unit e cfg OLOUnit.Error value
    (Except.ok c, t)
  else
    (Except.error "Invalid OLOUnit", [])

/-- The function names registered on the `olo_rust` python module by the
`#[pymodule] fn olo_rust` body in src/src/python.rs: seven
`m.add_function(wrap_pyfunction!(...))` calls, in source order. -/
def olo_rust_module_functions : List String :=
  ["olo_1_point_complex_py", "olo_2_point_complex_py",
   "olo_3_point_complex_py", "olo_4_point_complex_py",
   "olo_scale_py", "set_olo_unit_py", "olo_onshell_py"]

/-- The non-function attributes (constants, classes) registered on the
`olo_rust` python module in src/src/python.rs: the module body contains no
`m.add` or `m.add_class` call, so this list is empty. -/
def olo_rust_module_attributes : List String := []

/-- Modelled from the spec: the set of log-unit names the spec lists as
recognized by `set_log_level` (spec §3 and §4.3: one of
{print-all, message, warning, error}).  This is the spec-side reference
the source's string matching is compared against. -/
def specLogUnitNames : List String :=
  ["print-all", "message", "warning", "error"]

/-- C1: each of the four integral evaluation functions allocates a fresh
zero-initialized three-coefficient result, invokes the external engine
exactly once on that buffer and its arguments, and returns the populated
result by value; its FFI trace is a single engine call and nothing else. -/
theorem eval_functions_single_engine_call (e : Engine) (cfg : Config)
    (x1 x2 x3 x4 x5 x6 x7 x8 x9 x10 : Complex64) :
    (∀ i, ResultOLO.default.values i = Complex64.zero) ∧
    olo_1_point_complex e cfg x1 =
      (e.a0 cfg ResultOLO.default x1, [EngineCall.a0 ResultOLO.default x1]) ∧
    olo_2_point_complex e cfg x1 x2 x3 =
      (e.b0 cfg ResultOLO.default x1 x2 x3,
       [EngineCall.b0 ResultOLO.default x1 x2 x3]) ∧
    olo_3_point_complex e cfg x1 x2 x3 x4 x5 x6 =
      (e.c0 cfg ResultOLO.default x1 x2 x3 x4 x5 x6,
       [EngineCall.c0 ResultOLO.default x1 x2 x3 x4 x5 x6]) ∧
    olo_4_point_complex e cfg x1 x2 x3 x4 x5 x6 x7 x8 x9 x10 =
      (e.d0 cfg ResultOLO.default x1 x2 x3 x4 x5 x6 x7 x8 x9 x10,
       [EngineCall.d0 ResultOLO.default x1 x2 x3 x4 x5 x6 x7 x8 x9 x10]) :=
  ⟨fun _ => rfl, rfl, rfl, rfl, rfl⟩

/-- C2: the accessor `epsilon_0` returns the coefficient at position 0,
`epsilon_minus_1` the one at position 1, and `epsilon_minus_2` the one at
position 2 of the internal three-element array. -/
theorem accessors_return_positions (r : ResultOLO) :
    r.epsilon_0 = r.values 0 ∧
    r.epsilon_minus_1 = r.values 1 ∧
    r.epsilon_minus_2 = r.values 2 :=
  ⟨rfl, rfl, rfl⟩

/-- C3 counterexample: the spec's recognized log-unit list contains
"print-all", yet `set_olo_unit_py` rejects that very string with an
invalid-argument error and an empty FFI trace, because the source matches
the lowercased name against "printall" (no hyphen). -/
theorem set_olo_unit_py_print_all_cex :
    "print-all" ∈ specLogUnitNames ∧
    set_olo_unit_py Engine.trivial Config.default "print-all" none =
      (Except.error "Invalid OLOUnit", []) :=
  ⟨by decide, rfl⟩

/-- C3 amended: `set_olo_unit_py` signals an invalid-argument error and
performs no engine call if and only if the lowercased unit name is not one
of {printall, message, warning, error}; on each recognized name it forwards
the corresponding unit and the optional sink to the engine exactly once and
returns success. -/
theorem set_olo_unit_py_validation (e : Engine) (cfg : Config) (s : String)
    (v : Option Int) :
    ((set_olo_unit_py e cfg s v).1.isOk ↔
      toLowercase s ∈ ["printall", "message", "warning", "error"]) ∧
    (toLowercase s ∉ ["printall", "message", "warning", "error"] →
      set_olo_unit_py e cfg s v = (Except.error "Invalid OLOUnit", [])) ∧
    (toLowercase s = "printall" →
      set_olo_unit_py e cfg s v =
        (Except.ok (e.setUnit cfg OLOUnit.PrintAll v),
         [EngineCall.unitSet OLOUnit.PrintAll v])) ∧
    (toLowercase s = "message" →
      set_olo_unit_py e cfg s v =
        (Except.ok (e.setUnit cfg OLOUnit.Message v),
         [EngineCall.unitSet OLOUnit.Message v])) ∧
    (toLowercase s = "warning" →
      set_olo_unit_py e cfg s v =
        (Except.ok (e.setUnit cfg OLOUnit.Warning v),
         [EngineCall.unitSet OLOUnit.Warning v])) ∧
    (toLowercase s = "error" →
      set_olo_unit_py e cfg s v =
        (Except.ok (e.setUnit cfg OLOUnit.Error v),
         [EngineCall.unitSet OLOUnit.Error v])) := by
  simp only [set_olo_unit_py, olo_unit, List.mem_cons, List.not_mem_nil,
    or_false, List.mem_singleton]
  split_ifs with h1 h2 h3 h4 <;>
    simp_all [Except.isOk, Except.toBool]

/-- C3 witness: instantiating the validation theorem at the rejected
string "bogus" and the accepted string "Warning". -/
theorem set_olo_unit_py_validation_witness :
    (((set_olo_unit_py Engine.trivial Config.default "bogus" none).1.isOk ↔
      toLowercase "bogus" ∈ ["printall", "message", "warning", "error"]) ∧
    (toLowercase "bogus" ∉ ["printall", "message", "warning", "error"] →
      set_olo_unit_py Engine.trivial Config.default "bogus" none =
        (Except.error "Invalid OLOUnit", [])) ∧
    (toLowercase "bogus" = "printall" →
      set_olo_unit_py Engine.trivial Config.default "bogus" none =
        (Except.ok (Engine.trivial.setUnit Config.default OLOUnit.PrintAll none),
         [EngineCall.unitSet OLOUnit.PrintAll none])) ∧
    (toLowercase "bogus" = "message" →
      set_olo_unit_py Engine.trivial Config.default "bogus" none =
        (Except.ok (Engine.trivial.setUnit Config.default OLOUnit.Message none),
         [EngineCall.unitSet OLOUnit.Message none])) ∧
    (toLowercase "bogus" = "warning" →
      set_olo_unit_py Engine.trivial Config.default "bogus" none =
        (Except.ok (Engine.trivial.setUnit Config.default OLOUnit.Warning none),
         [EngineCall.unitSet OLOUnit.Warning none])) ∧
    (toLowercase "bogus" = "error" →
      set_olo_unit_py Engine.trivial Config.default "bogus" none =
        (Except.ok (Engine.trivial.setUnit Config.default OLOUnit.Error none),
         [EngineCall.unitSet OLOUnit.Error none]))) ∧
    (set_olo_unit_py Engine.trivial Config.default "Warning" none).1.isOk :=
  ⟨set_olo_unit_py_validation Engine.trivial Config.default "bogus" none,
   by decide⟩

/-- C4: two calls of the same evaluation function with identical arguments
and unchanged ambient engine configuration return bit-identical
`LaurentResult` values, for each of the four functions. -/
theorem eval_functions_idempotent (e : Engine) (cfg cfg' : Config)
    (h : cfg' = cfg) (x1 x2 x3 x4 x5 x6 x7 x8 x9 x10 : Complex64) :
    (olo_1_point_complex e cfg' x1).1 = (olo_1_point_complex e cfg x1).1 ∧
    (olo_2_point_complex e cfg' x1 x2 x3).1 =
      (olo_2_point_complex e cfg x1 x2 x3).1 ∧
    (olo_3_point_complex e cfg' x1 x2 x3 x4 x5 x6).1 =
      (olo_3_point_complex e cfg x1 x2 x3 x4 x5 x6).1 ∧
    (olo_4_point_complex e cfg' x1 x2 x3 x4 x5 x6 x7 x8 x9 x10).1 =
      (olo_4_point_complex e cfg x1 x2 x3 x4 x5 x6 x7 x8 x9 x10).1 := by
  subst h
  exact ⟨rfl, rfl, rfl, rfl⟩

/-- C4 witness: the idempotence theorem applied at a concrete engine,
configuration and zero arguments. -/
theorem eval_functions_idempotent_witness :
    (olo_1_point_complex Engine.trivial Config.default Complex64.zero).1 =
      (olo_1_point_complex Engine.trivial Config.default Complex64.zero).1 ∧
    (olo_2_point_complex Engine.trivial Config.default Complex64.zero
        Complex64.zero Complex64.zero).1 =
      (olo_2_point_complex Engine.trivial Config.default Complex64.zero
        Complex64.zero Complex64.zero).1 ∧
    (olo_3_point_complex Engine.trivial Config.default Complex64.zero
        Complex64.zero Complex64.zero Complex64.zero Complex64.zero
        Complex64.zero).1 =
      (olo_3_point_complex Engine.trivial Config.default Complex64.zero
        Complex64.zero Complex64.zero Complex64.zero Complex64.zero
        Complex64.zero).1 ∧
    (olo_4_point_complex Engine.trivial Config.default Complex64.zero
        Complex64.zero Complex64.zero Complex64.zero Complex64.zero
        Complex64.zero Complex64.zero Complex64.zero Complex64.zero
        Complex64.zero).1 =
      (olo_4_point_complex Engine.trivial Config.default Complex64.zero
        Complex64.zero Complex64.zero Complex64.zero Complex64.zero
        Complex64.zero Complex64.zero Complex64.zero Complex64.zero
        Complex64.zero).1 :=
  eval_functions_idempotent Engine.trivial Config.default Config.default rfl
    Complex64.zero Complex64.zero Complex64.zero Complex64.zero Complex64.zero
    Complex64.zero Complex64.zero Complex64.zero Complex64.zero Complex64.zero

/-- C5: the constant `TO_FEYNMAN` equals −1⁄(16π²), with the source's
`-1.0 / (16.0 * PI * PI)` idealized over the reals. -/
theorem to_feynman_value : TO_FEYNMAN = -(1 / (16 * Real.pi ^ 2)) := by
  unfold TO_FEYNMAN
  norm_num
  ring

/-- C6 counterexample: `ResultOLO` derives only Clone, Copy and Default in
the source; no equality trait (`PartialEq`/`Eq`) is derived or implemented,
so the type supports no equality comparison operator. -/
theorem resultOLO_derives_no_equality_cex :
    "PartialEq" ∉ ResultOLO.derivedTraits ∧
    "Eq" ∉ ResultOLO.derivedTraits := by
  decide

/-- C6 amended: the source defines no equality operator on the Laurent
result type (its derive list is Clone, Copy, Default only); value equality
of results is nonetheless structural and exact: two results are equal if
and only if all three coefficients match exactly, with no tolerance. -/
theorem resultOLO_value_equality_structural (r s : ResultOLO) :
    r = s ↔
      (r.epsilon_0 = s.epsilon_0 ∧ r.epsilon_minus_1 = s.epsilon_minus_1 ∧
       r.epsilon_minus_2 = s.epsilon_minus_2) := by
  constructor
  · intro h
    subst h
    exact ⟨rfl, rfl, rfl⟩
  · rintro ⟨h0, h1, h2⟩
    cases r
    cases s
    congr 1
    funext i
    fin_cases i
    · exact h0
    · exact h1
    · exact h2

/-- C7 counterexample: the `olo_rust` python module registers seven
functions and nothing else; in particular no export of the normalization
constant `TO_FEYNMAN` exists on the module. -/
theorem module_constant_not_exported_cex :
    "TO_FEYNMAN" ∉ olo_rust_module_functions ∧
    olo_rust_module_attributes = [] := by
  decide

/-- C7 amended: the binding layer exposes the named accessors `epsilon_0`,
`epsilon_minus_1`, `epsilon_minus_2` on the result wrapper and the four
evaluation functions (under `_py`-suffixed names, each delegating to the
library function unchanged), but it does not export the normalization
constant. -/
theorem module_surface_amended (e : Engine) (cfg : Config)
    (x1 x2 x3 x4 x5 x6 x7 x8 x9 x10 : Complex64) :
    "epsilon_0" ∈ PyOLOResult.getterNames ∧
    "epsilon_minus_1" ∈ PyOLOResult.getterNames ∧
    "epsilon_minus_2" ∈ PyOLOResult.getterNames ∧
    "olo_1_point_complex_py" ∈ olo_rust_module_functions ∧
    "olo_2_point_complex_py" ∈ olo_rust_module_functions ∧
    "olo_3_point_complex_py" ∈ olo_rust_module_functions ∧
    "olo_4_point_complex_py" ∈ olo_rust_module_functions ∧
    (olo_1_point_complex_py e cfg x1).1.inner =
      (olo_1_point_complex e cfg x1).1 ∧
    (olo_2_point_complex_py e cfg x1 x2 x3).1.inner =
      (olo_2_point_complex e cfg x1 x2 x3).1 ∧
    (olo_3_point_complex_py e cfg x1 x2 x3 x4 x5 x6).1.inner =
      (olo_3_point_complex e cfg x1 x2 x3 x4 x5 x6).1 ∧
    (olo_4_point_complex_py e cfg x1 x2 x3 x4 x5 x6 x7 x8 x9 x10).1.inner =
      (olo_4_point_complex e cfg x1 x2 x3 x4 x5 x6 x7 x8 x9 x10).1 ∧
    "TO_FEYNMAN" ∉ olo_rust_module_functions ∧
    "TO_FEYNMAN" ∉ olo_rust_module_attributes :=
  ⟨by decide, by decide, by decide, by decide, by decide, by decide,
   by decide, rfl, rfl, rfl, rfl, by decide, by decide⟩

/-- C8 counterexample: the two-point wrapper forwards the imaginary part
of `p` unchanged to the engine, so for an engine whose two-point routine
reads it, two runs whose `p` differ only in imaginary part (one of them
zero) return different results. -/
theorem two_point_im_dependent_cex :
    (olo_2_point_complex imSensitiveEngine Config.default ⟨1, 1⟩
        Complex64.zero Complex64.zero).1.epsilon_0 ≠
      (olo_2_point_complex imSensitiveEngine Config.default ⟨1, 0⟩
        Complex64.zero Complex64.zero).1.epsilon_0 := by
  intro h
  have h1 : (1 : ℝ) = 0 := congrArg Complex64.re h
  norm_num at h1

/-- C8 amended: the two-point wrapper passes `p`, including its imaginary
part, verbatim to the engine; two runs whose `p` arguments differ only in
imaginary part return the same `LaurentResult` exactly when the engine's
own two-point routine is insensitive to that imaginary part. -/
theorem two_point_im_independent_conditional (e : Engine) (cfg : Config)
    (p m1 m2 : Complex64)
    (h : e.b0 cfg ResultOLO.default ⟨p.re, 0⟩ m1 m2 =
        e.b0 cfg ResultOLO.default p m1 m2) :
    (olo_2_point_complex e cfg ⟨p.re, 0⟩ m1 m2).1 =
      (olo_2_point_complex e cfg p m1 m2).1 :=
  h

/-- C8 witness: the conditional independence theorem applied to a concrete
engine that ignores the momentum entirely, at `p = 2 + 5i`. -/
theorem two_point_im_independent_conditional_witness :
    (olo_2_point_complex Engine.trivial Config.default
        ⟨(⟨2, 5⟩ : Complex64).re, 0⟩ Complex64.zero Complex64.zero).1 =
      (olo_2_point_complex Engine.trivial Config.default ⟨2, 5⟩
        Complex64.zero Complex64.zero).1 :=
  two_point_im_independent_conditional Engine.trivial Config.default ⟨2, 5⟩
    Complex64.zero Complex64.zero rfl

/-- C9: the numeric configuration setters of this layer are total, have no
error branch and perform no validation: for every real argument, including
out-of-range values such as a negative on-shell threshold, each setter
passes the value to the external engine unconditionally (its FFI trace is
exactly one engine call carrying the argument verbatim). -/
theorem config_setters_unconditional (e : Engine) (cfg : Config) (t mu : ℝ)
    (u : OLOUnit) (v : Option Int) :
    olo_onshell e cfg t = (e.onshell cfg t, [EngineCall.onshellSet t]) ∧
    olo_renormalization_scale e cfg mu =
      (e.scale cfg mu, [EngineCall.scaleSet mu]) ∧
    olo_unit e cfg u v = (e.setUnit cfg u v, [EngineCall.unitSet u v]) :=
  ⟨rfl, rfl, rfl⟩

/-- C10: converting a result into the python wrapper via `From` preserves
all three coefficients: the wrapper's getters return exactly the inner
result's accessor values. -/
theorem fromResult_preserves_coefficients (r : OLOResult) :
    (PyOLOResult.fromResult r).epsilon_0 = r.epsilon_0 ∧
    (PyOLOResult.fromResult r).epsilon_minus_1 = r.epsilon_minus_1 ∧
    (PyOLOResult.fromResult r).epsilon_minus_2 = r.epsilon_minus_2 :=
  ⟨rfl, rfl, rfl⟩
